import Mathlib

/-!
Shallow embedding of `src/find_unwatched_media.py` (Find-Unwatched-Media).

The script cross-references a Tautulli watch history against Sonarr/Radarr
libraries, collects unwatched items, persists them to a JSON file and offers
interactive deletion.  The pure data flow of each method is embedded below;
HTTP fetches become function parameters, interactive input becomes a function
from the prompt counter to the typed answer, and `exit(1)` becomes an
`Except.error` result.  Character classes of the Python regex and of
`str.lower`/`str.strip` are modelled at their ASCII core, which covers every
string appearing in the repository and in this development.
-/

/-- A Sonarr series / Radarr movie record as consumed by the script:
`title`, the optional external ids read with `media.get(key)`, and the
fields `path`, `id`, `titleSlug`, `year` read by direct indexing. -/
structure ArrEntry where
  title : String
  imdbId : Option String
  tmdbId : Option String
  tvdbId : Option String
  path : String
  id : Int
  titleSlug : String
  year : Int
deriving DecidableEq

/-- One row of Tautulli `get_library_media_info` data as used by
`get_unwatched_media`: `rating_key`, `title`, `added_at` (epoch seconds,
the script applies `int(...)`), and `last_played` (absent/None or a number). -/
structure TautulliMedia where
  rating_key : String
  title : String
  added_at : Int
  last_played : Option Int
deriving DecidableEq

/-- The fields of a Tautulli `get_metadata` response used by `get_arr_info`:
`media_type`, the `guids` list and the `title`. -/
structure TautulliMetadata where
  media_type : String
  guids : List String
  title : String
deriving DecidableEq

/-- One element of the script's `self.unwatched_media` list: the dict
`{"title", "path", "id", "type", "url", "year"}` built in
`get_unwatched_media`. -/
structure UnwatchedItem where
  title : String
  path : String
  id : Int
  type : String
  url : String
  year : Int
deriving DecidableEq

/-- Python regex `\w` (ASCII core): letters, digits and underscore. -/
def isWordChar (c : Char) : Bool :=
  c.isAlphanum || c == '_'

/-- Python regex `\s` / `str.strip` whitespace (ASCII core). -/
def isSpaceChar (c : Char) : Bool :=
  c == ' ' || c == '\t' || c == '\n' || c == '\r' || c == '\x0b' || c == '\x0c'

/-- A word boundary sits before a digit exactly when the preceding original
character (`none` at the start of the string) is not a word character. -/
def nonWordBefore : Option Char → Bool
  | none => true
  | some c => !isWordChar c

/-- A word boundary sits after a digit exactly when the following original
character (none at the end of the string) is not a word character. -/
def nonWordNext : List Char → Bool
  | [] => true
  | c :: _ => !isWordChar c

/-- `re.sub(r'\b\d{4}\b|[^\w\s]', '', title)` scanning the original
character list left to right.  `prev` is the character just before the
current position in the original string, used for the `\b` test.  At each
position the engine first tries `\b\d{4}\b` (four digits framed by word
boundaries, consuming four characters), then `[^\w\s]` (one character that
is neither word nor whitespace), else keeps the character. -/
def reSubYearPunct : Option Char → List Char → List Char
  | _, [] => []
  | prev, c :: c2 :: c3 :: c4 :: rest =>
    if c.isDigit && nonWordBefore prev && c2.isDigit && c3.isDigit && c4.isDigit
        && nonWordNext rest then
      reSubYearPunct (some c4) rest
    else if !(isWordChar c || isSpaceChar c) then
      reSubYearPunct (some c) (c2 :: c3 :: c4 :: rest)
    else
      c :: reSubYearPunct (some c) (c2 :: c3 :: c4 :: rest)
  | _prev, c :: cs =>
    if !(isWordChar c || isSpaceChar c) then
      reSubYearPunct (some c) cs
    else
      c :: reSubYearPunct (some c) cs

/-- Python `str.strip()`: drop leading and trailing whitespace. -/
def pyStrip (cs : List Char) : List Char :=
  ((cs.dropWhile isSpaceChar).reverse.dropWhile isSpaceChar).reverse

/-- `WatchStatusChecker.clean_title`:
`re.sub(r'\b\d{4}\b|[^\w\s]', '', title).strip()`. -/
def clean_title (title : String) : String :=
  String.mk (pyStrip (reSubYearPunct none title.data))

/-- `guid.split('//')`, scanning left to right for non-overlapping `//`
separators, accumulating the current piece in reverse. -/
def splitSepAux (cur : List Char) : List Char → List (List Char)
  | [] => [cur.reverse]
  | '/' :: '/' :: rest => cur.reverse :: splitSepAux [] rest
  | c :: rest => splitSepAux (c :: cur) rest

/-- `guid.split('//')[1]`: the segment after the first `//`.  The script
assumes every GUID contains `//`; a separator-free string (which would raise
`IndexError` in Python) is mapped to `""` here — no claim depends on it. -/
def guid_external_id (guid : String) : String :=
  String.mk ((splitSepAux [] guid.data).getD 1 [])

/-- `[guid.split('//')[1] for guid in tautulli_media_metadata["guids"]]`. -/
def extract_guid_ids (guids : List String) : List String :=
  guids.map guid_external_id

/-- `media.get(key) in guids_ids`: an absent key yields Python `None`,
which is never an element of the list of id strings. -/
def optMem (o : Option String) (ids : List String) : Bool :=
  match o with
  | some v => ids.contains v
  | none => false

/-- The inner `for key in ["imdbId", "tmdbId", "tvdbId"]` loop of
`get_arr_info`: does any of the three (optional) ids occur in `guids_ids`? -/
def exactIdHit (media : ArrEntry) (guids_ids : List String) : Bool :=
  optMem media.imdbId guids_ids || optMem media.tmdbId guids_ids
    || optMem media.tvdbId guids_ids

/-- `clean_title(media["title"]) == clean_title(tautulli_media_metadata["title"])`. -/
def titleMatches (metaTitle : String) (media : ArrEntry) : Bool :=
  clean_title media.title == clean_title metaTitle

/-- Result of the library scan in `get_arr_info`: an id match returns the
entry immediately; otherwise the last title match is reported as fuzzy
(the script prints "Fuzzy title search match"); otherwise no match. -/
inductive MatchResult where
  | exact (m : ArrEntry)
  | fuzzy (m : ArrEntry)
  | noMatch
deriving DecidableEq

/-- The `for media in library` loop of `get_arr_info` with the running
`fuzzy_title_match` accumulator (initially `None`): each entry first
overwrites the accumulator when its cleaned title matches, then returns
immediately on an external-id hit; after the loop the accumulator decides
between a fuzzy match and no match. -/
def arr_library_scan (metaTitle : String) (guids_ids : List String) :
    List ArrEntry → Option ArrEntry → MatchResult
  | [], none => .noMatch
  | [], some m => .fuzzy m
  | media :: rest, fuzzy_title_match =>
    let fuzzy_title_match' :=
      if titleMatches metaTitle media then some media else fuzzy_title_match
    if exactIdHit media guids_ids then .exact media
    else arr_library_scan metaTitle guids_ids rest fuzzy_title_match'

/-- Outcome of `get_arr_info`: empty metadata returns `(None, None)` after a
"No item found" message (the caller skips the item); an unknown media type
prints "Invalid media type" and calls `exit(1)` (fatal); otherwise the scan
result is paired with the media type, a no-match again yielding
`(None, None)`. -/
inductive ArrInfoResult where
  | noMetadata
  | fatal (mediaType : String)
  | exact (m : ArrEntry) (mediaType : String)
  | fuzzy (m : ArrEntry) (mediaType : String)
  | noMatch
deriving DecidableEq

/-- Pair a scan result with the media type, as the returns of `get_arr_info`
do. -/
def matchToResult (r : MatchResult) (mediaType : String) : ArrInfoResult :=
  match r with
  | .exact m => .exact m mediaType
  | .fuzzy m => .fuzzy m mediaType
  | .noMatch => .noMatch

/-- `WatchStatusChecker.get_arr_info`, with the already-fetched metadata
(`None` models a falsy `response.data`) and the two cached libraries as
inputs. -/
def get_arr_info (tvLibrary movieLibrary : List ArrEntry)
    (metadata : Option TautulliMetadata) : ArrInfoResult :=
  match metadata with
  | none => .noMetadata
  | some md =>
    let guids_ids := extract_guid_ids md.guids
    if md.media_type == "show" then
      matchToResult (arr_library_scan md.title guids_ids tvLibrary none) "show"
    else if md.media_type == "movie" then
      matchToResult (arr_library_scan md.title guids_ids movieLibrary none) "movie"
    else .fatal md.media_type

/-- The watch-status test of `get_unwatched_media`:
`media['last_played'] is None or int(media['last_played']) == 0`. -/
def passesUnwatched (m : TautulliMedia) : Bool :=
  match m.last_played with
  | none => true
  | some v => v == 0

/-- The age test of `get_unwatched_media`:
`datetime.fromtimestamp(int(item['added_at'])) <= datetime.now() - timedelta(days=60)`,
expressed in epoch seconds (60 days = 5184000 seconds). -/
def ageCutoffKeep (now added : Int) : Bool :=
  added <= now - 60 * 86400

/-- The list comprehension filtering `all_media_data` by age. -/
def ageFiltered (now : Int) (all_media_data : List TautulliMedia) :
    List TautulliMedia :=
  all_media_data.filter (fun item => ageCutoffKeep now item.added_at)

/-- Boolean substring test: Python's `sub in s`. -/
def containsSub (sub : List Char) : List Char → Bool
  | [] => sub.isEmpty
  | c :: cs => sub.isPrefixOf (c :: cs) || containsSub sub cs

/-- Python's `pattern in s` on strings. -/
def strContains (s pattern : String) : Bool :=
  containsSub pattern.data s.data

/-- The deep-link URL of `get_unwatched_media`:
`{sonarr_host}/series/{titleSlug}` for shows, else
`{radarr_host}/movie/{titleSlug}`. -/
def mkUrl (sonarrHost radarrHost mediaType titleSlug : String) : String :=
  if mediaType == "show" then sonarrHost ++ "/series/" ++ titleSlug
  else radarrHost ++ "/movie/" ++ titleSlug

/-- The dict appended to `self.unwatched_media`: the Tautulli title together
with the matched library entry's path, id and year, the media type, and the
deep-link URL. -/
def mkItem (sonarrHost radarrHost : String) (m : TautulliMedia)
    (arr : ArrEntry) (mediaType : String) : UnwatchedItem :=
  { title := m.title, path := arr.path, id := arr.id, type := mediaType,
    url := mkUrl sonarrHost radarrHost mediaType arr.titleSlug,
    year := arr.year }

/-- The `for media in all_media_data` loop of `get_unwatched_media` after the
age filter: watched items are passed over, a falsy `arr_info` (no metadata or
no match) is skipped with `continue`, `exit(1)` on an invalid media type
aborts the whole run (`Except.error`), and a match whose path avoids
`"(Do Not Delete)"` contributes an `UnwatchedItem` in source order. -/
def buildUnwatched (sonarrHost radarrHost : String)
    (tvLibrary movieLibrary : List ArrEntry)
    (metaOf : String → Option TautulliMetadata) :
    List TautulliMedia → Except String (List UnwatchedItem)
  | [] => .ok []
  | m :: rest =>
    if passesUnwatched m then
      match get_arr_info tvLibrary movieLibrary (metaOf m.rating_key) with
      | .noMetadata => buildUnwatched sonarrHost radarrHost tvLibrary movieLibrary metaOf rest
      | .noMatch => buildUnwatched sonarrHost radarrHost tvLibrary movieLibrary metaOf rest
      | .fatal mt => .error ("Invalid media type: " ++ mt)
      | .exact arr mt =>
        if strContains arr.path "(Do Not Delete)" then
          buildUnwatched sonarrHost radarrHost tvLibrary movieLibrary metaOf rest
        else
          Except.map (fun items => mkItem sonarrHost radarrHost m arr mt :: items)
            (buildUnwatched sonarrHost radarrHost tvLibrary movieLibrary metaOf rest)
      | .fuzzy arr mt =>
        if strContains arr.path "(Do Not Delete)" then
          buildUnwatched sonarrHost radarrHost tvLibrary movieLibrary metaOf rest
        else
          Except.map (fun items => mkItem sonarrHost radarrHost m arr mt :: items)
            (buildUnwatched sonarrHost radarrHost tvLibrary movieLibrary metaOf rest)
    else buildUnwatched sonarrHost radarrHost tvLibrary movieLibrary metaOf rest

/-- `WatchStatusChecker.get_unwatched_media` on already-fetched data:
`all_media_data` is the concatenated movie and show media info, `metaOf`
stands for the per-rating-key `get_metadata` fetch, and `now` is the current
time in epoch seconds. -/
def get_unwatched_media (now : Int) (sonarrHost radarrHost : String)
    (tvLibrary movieLibrary : List ArrEntry)
    (metaOf : String → Option TautulliMetadata)
    (all_media_data : List TautulliMedia) :
    Except String (List UnwatchedItem) :=
  buildUnwatched sonarrHost radarrHost tvLibrary movieLibrary metaOf
    (ageFiltered now all_media_data)

/-- Python `str.lower()` (ASCII core), as applied to the operator's answer. -/
def py_lower (s : String) : String :=
  String.mk (s.data.map Char.toLower)

/-- The DELETE URL of `delete_media`:
`{sonarr_host}/api/v3/series/{id}?apikey=...&deleteFiles=true` for shows,
else the Radarr movie endpoint with the same flag. -/
def delete_url (sonarrHost sonarrToken radarrHost radarrToken : String)
    (media : UnwatchedItem) : String :=
  if media.type == "show" then
    sonarrHost ++ "/api/v3/series/" ++ toString media.id ++ "?apikey="
      ++ sonarrToken ++ "&deleteFiles=true"
  else
    radarrHost ++ "/api/v3/movie/" ++ toString media.id ++ "?apikey="
      ++ radarrToken ++ "&deleteFiles=true"

/-- `WatchStatusChecker.delete_media`.  `answer counter` is the operator's
raw input at the 1-based prompt counter; `deleteResp url` is the status code
`requests.delete(url)` would return.  Each item is paired with `none` when
the answer (lowercased) is not `"y"` (no DELETE issued), or with
`some (status == 200)`: `some true` prints "Deleted", `some false` prints
"Failed to delete"; no retry happens and the stored list itself is never
modified. -/
def delete_media (sonarrHost sonarrToken radarrHost radarrToken : String)
    (answer : Nat → String) (deleteResp : String → Nat) :
    Nat → List UnwatchedItem → List (UnwatchedItem × Option Bool)
  | _, [] => []
  | counter, media :: rest =>
    let outcome :=
      if py_lower (answer counter) == "y" then
        some (deleteResp
          (delete_url sonarrHost sonarrToken radarrHost radarrToken media) == 200)
      else none
    (media, outcome) ::
      delete_media sonarrHost sonarrToken radarrHost radarrToken answer deleteResp
        (counter + 1) rest

/-- JSON values, the image of `json.dump`/`json.load` for the data this
script persists (strings, integers, arrays, objects). -/
inductive JVal where
  | jstr (s : String)
  | jint (n : Int)
  | jarr (xs : List JVal)
  | jobj (fields : List (String × JVal))

/-- The JSON object `json.dump` writes for one element of
`self.unwatched_media`, keys in dict insertion order. -/
def itemToJson (it : UnwatchedItem) : JVal :=
  .jobj [("title", .jstr it.title), ("path", .jstr it.path),
         ("id", .jint it.id), ("type", .jstr it.type),
         ("url", .jstr it.url), ("year", .jint it.year)]

/-- `json.dump(self.unwatched_media, f)` at the JSON-value level: the
textual encoding performed by the Python `json` library is a bijection on
these values and is modelled as the identity. -/
def saveUnwatched (items : List UnwatchedItem) : JVal :=
  .jarr (items.map itemToJson)

/-- Dict key lookup on a decoded JSON object. -/
def jLookup (fields : List (String × JVal)) (k : String) : Option JVal :=
  match fields with
  | [] => none
  | (k', v) :: rest => if k' == k then some v else jLookup rest k

/-- Read a JSON string field. -/
def asStr : Option JVal → Option String
  | some (.jstr s) => some s
  | _ => none

/-- Read a JSON integer field. -/
def asInt : Option JVal → Option Int
  | some (.jint n) => some n
  | _ => none

/-- Decode one stored dict back into the shape `delete_media` consumes
(fields `title`, `path`, `id`, `type`, `url`, `year`). -/
def jsonToItem (j : JVal) : Option UnwatchedItem :=
  match j with
  | .jobj fields =>
    match asStr (jLookup fields "title"), asStr (jLookup fields "path"),
          asInt (jLookup fields "id"), asStr (jLookup fields "type"),
          asStr (jLookup fields "url"), asInt (jLookup fields "year") with
    | some t, some p, some i, some ty, some u, some y =>
      some { title := t, path := p, id := i, type := ty, url := u, year := y }
    | _, _, _, _, _, _ => none
  | _ => none

/-- Decode a list of stored dicts; any malformed element fails the load. -/
def decodeItems : List JVal → Option (List UnwatchedItem)
  | [] => some []
  | j :: rest =>
    match jsonToItem j, decodeItems rest with
    | some it, some its => some (it :: its)
    | _, _ => none

/-- `json.load` of `unwatched_media.json` at the JSON-value level. -/
def loadUnwatched (j : JVal) : Option (List UnwatchedItem) :=
  match j with
  | .jarr xs => decodeItems xs
  | _ => none

/-! ## Helper lemmas about the library scan -/

/-- When the head of the library has no id hit, the scan steps to the tail
with the title accumulator updated. -/
lemma arr_library_scan_cons_no_hit (t : String) (ids : List String)
    (e : ArrEntry) (rest : List ArrEntry) (acc : Option ArrEntry)
    (he : exactIdHit e ids = false) :
    arr_library_scan t ids (e :: rest) acc =
      arr_library_scan t ids rest
        (if titleMatches t e then some e else acc) := by
  simp [arr_library_scan, he]

/-- An exact-id hit on the head returns it at once. -/
lemma arr_library_scan_cons_hit (t : String) (ids : List String)
    (e : ArrEntry) (rest : List ArrEntry) (acc : Option ArrEntry)
    (he : exactIdHit e ids = true) :
    arr_library_scan t ids (e :: rest) acc = MatchResult.exact e := by
  simp [arr_library_scan, he]

/-- With no earlier id hit, the first id hit in the library is returned. -/
lemma scan_exact_of_first_hit (t : String) (ids : List String)
    (pre post : List ArrEntry) (hit : ArrEntry)
    (hpre : ∀ e ∈ pre, exactIdHit e ids = false)
    (hhit : exactIdHit hit ids = true) :
    ∀ acc, arr_library_scan t ids (pre ++ hit :: post) acc =
      MatchResult.exact hit := by
  induction pre with
  | nil =>
    intro acc
    exact arr_library_scan_cons_hit t ids hit post acc hhit
  | cons e pre ih =>
    intro acc
    have he : exactIdHit e ids = false := hpre e (List.mem_cons_self e pre)
    rw [List.cons_append, arr_library_scan_cons_no_hit t ids e _ acc he]
    exact ih (fun x hx => hpre x (List.mem_cons_of_mem e hx)) _

/-- A library segment with neither id hits nor title matches leaves the
fuzzy accumulator as the final (fuzzy) answer. -/
lemma scan_keeps_acc_of_no_match (t : String) (ids : List String)
    (l : List ArrEntry) (m : ArrEntry)
    (hex : ∀ e ∈ l, exactIdHit e ids = false)
    (hfz : ∀ e ∈ l, titleMatches t e = false) :
    arr_library_scan t ids l (some m) = MatchResult.fuzzy m := by
  induction l with
  | nil => rfl
  | cons e rest ih =>
    have h1 : exactIdHit e ids = false := hex e (List.mem_cons_self e rest)
    have h2 : titleMatches t e = false := hfz e (List.mem_cons_self e rest)
    rw [arr_library_scan_cons_no_hit t ids e rest _ h1, h2]
    exact ih (fun x hx => hex x (List.mem_cons_of_mem e hx))
      (fun x hx => hfz x (List.mem_cons_of_mem e hx))

/-- With no id hit anywhere, a title match followed only by non-matching
entries is the scan's fuzzy answer, whatever the incoming accumulator. -/
lemma scan_last_fuzzy (t : String) (ids : List String)
    (pre post : List ArrEntry) (m2 : ArrEntry)
    (hex : ∀ e ∈ pre ++ m2 :: post, exactIdHit e ids = false)
    (hm2 : titleMatches t m2 = true)
    (hpost : ∀ e ∈ post, titleMatches t e = false) :
    ∀ acc, arr_library_scan t ids (pre ++ m2 :: post) acc =
      MatchResult.fuzzy m2 := by
  induction pre with
  | nil =>
    intro acc
    have h1 : exactIdHit m2 ids = false := hex m2 (by simp)
    rw [List.nil_append, arr_library_scan_cons_no_hit t ids m2 post acc h1, hm2]
    exact scan_keeps_acc_of_no_match t ids post m2
      (fun x hx => hex x (by simp [hx])) hpost
  | cons e pre ih =>
    intro acc
    have h1 : exactIdHit e ids = false := hex e (by simp)
    rw [List.cons_append, arr_library_scan_cons_no_hit t ids e _ acc h1]
    exact ih (fun x hx => hex x (by simp at hx ⊢; tauto)) _

/-- A scan can only answer `exact m` when `m` itself has an id hit. -/
lemma scan_exact_implies_hit (t : String) (ids : List String) :
    ∀ (l : List ArrEntry) (acc : Option ArrEntry) (m : ArrEntry),
      arr_library_scan t ids l acc = MatchResult.exact m →
        exactIdHit m ids = true := by
  intro l
  induction l with
  | nil =>
    intro acc m h
    cases acc <;> simp [arr_library_scan] at h
  | cons e rest ih =>
    intro acc m h
    by_cases he : exactIdHit e ids = true
    · rw [arr_library_scan_cons_hit t ids e rest acc he] at h
      injection h with h'
      rw [← h']; exact he
    · rw [arr_library_scan_cons_no_hit t ids e rest acc
        (Bool.not_eq_true _ ▸ he)] at h
      exact ih _ m h

/-! ## C1: exact-id match wins and short-circuits -/

/-- C1: for every library order and GUID-derived id set, if no entry before
`hit` has an imdbId/tmdbId/tvdbId in the extracted id set and `hit` does,
the scan of `get_arr_info` returns `hit` as an exact match immediately —
regardless of any earlier entry whose normalized title equals the
watch-history title (no hypothesis restricts titles). -/
theorem exact_id_match_first_and_short_circuits
    (metaTitle : String) (guids : List String) (pre post : List ArrEntry)
    (hit : ArrEntry)
    (hpre : ∀ e ∈ pre, exactIdHit e (extract_guid_ids guids) = false)
    (hhit : exactIdHit hit (extract_guid_ids guids) = true) :
    arr_library_scan metaTitle (extract_guid_ids guids)
      (pre ++ hit :: post) none = MatchResult.exact hit :=
  scan_exact_of_first_hit metaTitle (extract_guid_ids guids) pre post hit
    hpre hhit none

/-- Earlier-ordered entry whose normalized title equals the watch-history
title, but without the sought id. -/
def c1Early : ArrEntry :=
  ⟨"Inception", some "tt0000001", none, none, "/movies/Early", 1, "early", 2001⟩

/-- Later-ordered entry carrying the sought imdbId under a different title. -/
def c1Hit : ArrEntry :=
  ⟨"Other Title", some "tt1375666", none, none, "/movies/Other", 2, "other", 2010⟩

/-- C1 witness: the id hit in second position beats the fuzzy-matching first
entry. -/
theorem exact_id_match_first_witness :
    titleMatches "Inception" c1Early = true ∧
      arr_library_scan "Inception" (extract_guid_ids ["imdb://tt1375666"])
        ([c1Early] ++ c1Hit :: []) none = MatchResult.exact c1Hit :=
  ⟨by decide,
    exact_id_match_first_and_short_circuits "Inception" ["imdb://tt1375666"]
      [c1Early] [] c1Hit (by decide) (by decide)⟩

/-! ## C2: fuzzy fallback keeps the last title match -/

/-- C2: with no external-id overlap between the library and the
GUID-derived id set, and at least two normalized-title matches (one in
`pre`, the final one `m2` followed only by non-matching entries), the scan
reports the later match `m2` — the last in library order — as fuzzy. -/
theorem fuzzy_fallback_returns_last
    (metaTitle : String) (guids : List String) (pre post : List ArrEntry)
    (m2 : ArrEntry)
    (hex : ∀ e ∈ pre ++ m2 :: post,
      exactIdHit e (extract_guid_ids guids) = false)
    (hm2 : titleMatches metaTitle m2 = true)
    (hpost : ∀ e ∈ post, titleMatches metaTitle e = false)
    (hpre : ∃ m1 ∈ pre, titleMatches metaTitle m1 = true) :
    arr_library_scan metaTitle (extract_guid_ids guids)
      (pre ++ m2 :: post) none = MatchResult.fuzzy m2 :=
  scan_last_fuzzy metaTitle (extract_guid_ids guids) pre post m2 hex hm2
    hpost none

/-- First of two fuzzy-matching entries; its id is not in the GUID set. -/
def c2First : ArrEntry :=
  ⟨"Dune", some "tt0001", none, none, "/movies/Dune1", 3, "dune-1", 1984⟩

/-- Second fuzzy-matching entry (its cleaned title also equals "Dune"). -/
def c2Last : ArrEntry :=
  ⟨"Dune (2021)", some "tt0002", none, none, "/movies/Dune2", 4, "dune-2", 2021⟩

/-- C2 witness: with no id overlap, the later of two title matches wins. -/
theorem fuzzy_fallback_returns_last_witness :
    arr_library_scan "Dune" (extract_guid_ids ["imdb://tt9999"])
      ([c2First] ++ c2Last :: []) none = MatchResult.fuzzy c2Last :=
  fuzzy_fallback_returns_last "Dune" ["imdb://tt9999"] [c2First] [] c2Last
    (by decide) (by decide) (by decide) (by decide)

/-! ## C10: a missing id field never produces an exact match -/

/-- C10: an entry whose `imdbId`, `tmdbId` and `tvdbId` are all absent has
no id hit against any id set — the `media.get(key)` result `None` is never
an element of the list of GUID-derived id strings — so no scan, over any
library and accumulator, can return that entry as an exact match. -/
theorem missing_ids_never_exact
    (metaTitle : String) (ids : List String) (l : List ArrEntry)
    (acc : Option ArrEntry) (e : ArrEntry)
    (h1 : e.imdbId = none) (h2 : e.tmdbId = none) (h3 : e.tvdbId = none) :
    exactIdHit e ids = false ∧
      arr_library_scan metaTitle ids l acc ≠ MatchResult.exact e := by
  have hx : exactIdHit e ids = false := by
    simp [exactIdHit, optMem, h1, h2, h3]
  refine ⟨hx, fun hcontra => ?_⟩
  have hh := scan_exact_implies_hit metaTitle ids l acc e hcontra
  rw [hx] at hh
  exact Bool.false_ne_true hh

/-- A library entry lacking all three external-id fields. -/
def c10Entry : ArrEntry :=
  ⟨"No Ids Here", none, none, none, "/movies/NoIds", 5, "no-ids", 1990⟩

/-- C10 witness: the id-less entry is scanned but never an exact match. -/
theorem missing_ids_never_exact_witness :
    exactIdHit c10Entry ["tt1375666"] = false ∧
      arr_library_scan "No Ids Here" ["tt1375666"] [c10Entry] none ≠
        MatchResult.exact c10Entry :=
  missing_ids_never_exact "No Ids Here" ["tt1375666"] [c10Entry] none
    c10Entry rfl rfl rfl

/-! ## C3: clean_title — the concrete example holds, idempotence does not -/

/-- C3 counterexample: `clean_title` is not idempotent.  On `"12.34"` the
first pass removes only the dot (neither `3` nor the run around it is a
standalone 4-digit group in the original string), producing `"1234"`; the
second pass now sees a standalone 4-digit run and deletes it, producing
`""`. -/
theorem clean_title_not_idempotent :
    ¬ (clean_title (clean_title "12.34") = clean_title "12.34") := by decide

/-- C3 amended: `clean_title "The Matrix (1999)" = "The Matrix"` with exact
casing, the punctuation and the standalone 4-digit year removed and the
surrounding whitespace trimmed, and `clean_title` is idempotent at this
input; full idempotence over all strings fails (punctuation removal can
create a fresh standalone 4-digit run, see the counterexample). -/
theorem clean_title_matrix_and_idempotent_there :
    clean_title "The Matrix (1999)" = "The Matrix" ∧
      clean_title (clean_title "The Matrix (1999)") =
        clean_title "The Matrix (1999)" := by decide

/-! ## C7: result-store round trip -/

/-- Decoding an encoded item restores it field for field. -/
lemma jsonToItem_itemToJson (it : UnwatchedItem) :
    jsonToItem (itemToJson it) = some it := rfl

/-- C7: serializing any sequence of `UnwatchedItem`s to the result store
and deserializing it again yields the same sequence, field for field. -/
theorem result_store_round_trip (items : List UnwatchedItem) :
    loadUnwatched (saveUnwatched items) = some items := by
  simp only [saveUnwatched, loadUnwatched]
  induction items with
  | nil => rfl
  | cons it rest ih =>
    simp only [List.map_cons, decodeItems, jsonToItem_itemToJson, ih]

/-! ## C4: the 60-day age filter -/

/-- C4: an entry added fewer than 60 days (5184000 seconds) before `now` is
dropped by the age filter of `get_unwatched_media` — its presence in the
input changes nothing, whatever its watch status — and every entry that
survives the filter was added at least 60 days ago. -/
theorem recent_media_excluded (now : Int) (sonarrHost radarrHost : String)
    (tvLibrary movieLibrary : List ArrEntry)
    (metaOf : String → Option TautulliMetadata)
    (m : TautulliMedia) (l : List TautulliMedia)
    (h : now - m.added_at < 60 * 86400) :
    m ∉ ageFiltered now l ∧
      get_unwatched_media now sonarrHost radarrHost tvLibrary movieLibrary
          metaOf (m :: l) =
        get_unwatched_media now sonarrHost radarrHost tvLibrary movieLibrary
          metaOf l ∧
      ∀ m' ∈ ageFiltered now l, 60 * 86400 ≤ now - m'.added_at := by
  have hk : ageCutoffKeep now m.added_at = false := by
    simp only [ageCutoffKeep, decide_eq_false_iff_not]
    omega
  refine ⟨?_, ?_, ?_⟩
  · intro hmem
    have hcond := (List.mem_filter.mp hmem).2
    rw [hk] at hcond
    exact Bool.false_ne_true hcond
  · simp [get_unwatched_media, ageFiltered, List.filter_cons, hk]
  · intro m' hm'
    have hcond := (List.mem_filter.mp hm').2
    simp only [ageCutoffKeep, decide_eq_true_eq] at hcond
    omega

/-- A recently added, never-watched entry (added 1000 seconds before the
witness clock). -/
def c4Recent : TautulliMedia := ⟨"rk4a", "Fresh Film", 9999000, none⟩

/-- An old entry in the same fetch. -/
def c4Old : TautulliMedia := ⟨"rk4b", "Old Film", 0, some 5⟩

/-- Metadata fetch that finds nothing (irrelevant to the age filter). -/
def c4Meta : String → Option TautulliMetadata := fun _ => none

/-- C4 witness at clock 10000000: the fresh entry is filtered out and does
not change the run's output. -/
theorem recent_media_excluded_witness :
    c4Recent ∉ ageFiltered 10000000 [c4Old] ∧
      get_unwatched_media 10000000 "sh" "rh" [] [] c4Meta
          (c4Recent :: [c4Old]) =
        get_unwatched_media 10000000 "sh" "rh" [] [] c4Meta [c4Old] ∧
      ∀ m' ∈ ageFiltered 10000000 [c4Old], 60 * 86400 ≤ 10000000 - m'.added_at :=
  recent_media_excluded 10000000 "sh" "rh" [] [] c4Meta c4Recent [c4Old]
    (by decide)

/-! ## C5: the last_played filter -/

/-- C5: an entry whose `last_played` is present and non-zero fails the
watch-status test of `get_unwatched_media` and contributes nothing to the
run: the loop body is skipped entirely for it. -/
theorem watched_media_excluded (sonarrHost radarrHost : String)
    (tvLibrary movieLibrary : List ArrEntry)
    (metaOf : String → Option TautulliMetadata)
    (m : TautulliMedia) (rest : List TautulliMedia) (v : Int)
    (h1 : m.last_played = some v) (h2 : v ≠ 0) :
    passesUnwatched m = false ∧
      buildUnwatched sonarrHost radarrHost tvLibrary movieLibrary metaOf
          (m :: rest) =
        buildUnwatched sonarrHost radarrHost tvLibrary movieLibrary metaOf
          rest := by
  have hp : passesUnwatched m = false := by simp [passesUnwatched, h1, h2]
  exact ⟨hp, by simp [buildUnwatched, hp]⟩

/-- An entry played once (non-zero `last_played`). -/
def c5Media : TautulliMedia := ⟨"rk5", "Seen Film", 0, some 5⟩

/-- Metadata fetch for the C5 witness (never consulted). -/
def c5Meta : String → Option TautulliMetadata := fun _ => none

/-- C5 witness: a watched entry is skipped by the loop. -/
theorem watched_media_excluded_witness :
    passesUnwatched c5Media = false ∧
      buildUnwatched "sh" "rh" [] [] c5Meta [c5Media] =
        buildUnwatched "sh" "rh" [] [] c5Meta [] :=
  watched_media_excluded "sh" "rh" [] [] c5Meta c5Media [] 5 rfl (by decide)

/-! ## C8: invalid media kind is fatal, missing metadata is a skip -/

/-- C8: a metadata record whose `media_type` is neither `"show"` nor
`"movie"` makes `get_arr_info` fatal, which aborts the whole run of
`get_unwatched_media` with the "Invalid media type" diagnostic (modelling
`exit(1)`); by contrast an empty metadata response for a rating key only
skips that item and the run continues on the remaining entries. -/
theorem invalid_media_type_fatal
    (tvLibrary movieLibrary : List ArrEntry) (md : TautulliMetadata)
    (sonarrHost radarrHost : String)
    (metaOf metaOf2 : String → Option TautulliMetadata)
    (m m2 : TautulliMedia) (rest rest2 : List TautulliMedia)
    (h1 : md.media_type ≠ "show") (h2 : md.media_type ≠ "movie")
    (hm : metaOf m.rating_key = some md) (hw : passesUnwatched m = true)
    (hn : metaOf2 m2.rating_key = none) (hw2 : passesUnwatched m2 = true) :
    get_arr_info tvLibrary movieLibrary (some md) =
        ArrInfoResult.fatal md.media_type ∧
      buildUnwatched sonarrHost radarrHost tvLibrary movieLibrary metaOf
          (m :: rest) =
        Except.error ("Invalid media type: " ++ md.media_type) ∧
      buildUnwatched sonarrHost radarrHost tvLibrary movieLibrary metaOf2
          (m2 :: rest2) =
        buildUnwatched sonarrHost radarrHost tvLibrary movieLibrary metaOf2
          rest2 := by
  have e1 : (md.media_type == "show") = false := by
    simp only [beq_eq_false_iff_ne, ne_eq]
    exact h1
  have e2 : (md.media_type == "movie") = false := by
    simp only [beq_eq_false_iff_ne, ne_eq]
    exact h2
  have hg : get_arr_info tvLibrary movieLibrary (some md) =
      ArrInfoResult.fatal md.media_type := by
    simp [get_arr_info, e1, e2]
  refine ⟨hg, ?_, ?_⟩
  · simp [buildUnwatched, hw, hm, hg]
  · simp [buildUnwatched, hw2, hn, get_arr_info]

/-- A metadata record with an unexpected media kind. -/
def c8Md : TautulliMetadata := ⟨"artist", ["agent//ar1"], "Some Artist"⟩

/-- The watch-history entry owning that record. -/
def c8Media : TautulliMedia := ⟨"rk8", "Some Artist", 0, none⟩

/-- Metadata fetch returning the artist record for `rk8`. -/
def c8Meta : String → Option TautulliMetadata :=
  fun k => if k == "rk8" then some c8Md else none

/-- An entry whose metadata lookup finds nothing. -/
def c8Media2 : TautulliMedia := ⟨"rk9", "Ghost Film", 0, some 0⟩

/-- Metadata fetch that finds nothing. -/
def c8Meta2 : String → Option TautulliMetadata := fun _ => none

/-- C8 witness: the artist record kills the run, the missing record only
skips its item. -/
theorem invalid_media_type_fatal_witness :
    get_arr_info [] [] (some c8Md) = ArrInfoResult.fatal c8Md.media_type ∧
      buildUnwatched "sh" "rh" [] [] c8Meta [c8Media] =
        Except.error ("Invalid media type: " ++ c8Md.media_type) ∧
      buildUnwatched "sh" "rh" [] [] c8Meta2 [c8Media2] =
        buildUnwatched "sh" "rh" [] [] c8Meta2 [] :=
  invalid_media_type_fatal [] [] c8Md "sh" "rh" c8Meta c8Meta2 c8Media
    c8Media2 [] [] (by decide) (by decide) (by decide) rfl rfl rfl

/-! ## C6: protected paths never reach the output -/

/-- C6: whenever the reconciliation loop completes (no fatal media type),
every emitted `UnwatchedItem` has a path free of the literal substring
`"(Do Not Delete)"`: a matched library entry with a protected path is
silently dropped. -/
theorem output_paths_never_protected
    (sonarrHost radarrHost : String) (tvLibrary movieLibrary : List ArrEntry)
    (metaOf : String → Option TautulliMetadata) (l : List TautulliMedia)
    (items : List UnwatchedItem)
    (h : buildUnwatched sonarrHost radarrHost tvLibrary movieLibrary metaOf l
      = Except.ok items) :
    ∀ it ∈ items, strContains it.path "(Do Not Delete)" = false := by
  induction l generalizing items with
  | nil =>
    simp only [buildUnwatched] at h
    injection h with h'
    subst h'
    intro it hit
    exact absurd hit (List.not_mem_nil it)
  | cons m rest ih =>
    simp only [buildUnwatched] at h
    split at h
    · split at h
      · exact ih items h
      · exact ih items h
      · exact Except.noConfusion h
      · split at h
        · exact ih items h
        · next arr mt heq hc =>
          cases hr : buildUnwatched sonarrHost radarrHost tvLibrary
              movieLibrary metaOf rest with
          | error e => rw [hr] at h; simp [Except.map] at h
          | ok its =>
            rw [hr] at h
            simp only [Except.map] at h
            injection h with h'
            subst h'
            intro it hit
            rcases List.mem_cons.mp hit with rfl | hmem
            · simpa [mkItem] using Bool.eq_false_iff.mpr hc
            · exact ih its hr it hmem
      · split at h
        · exact ih items h
        · next arr mt heq hc =>
          cases hr : buildUnwatched sonarrHost radarrHost tvLibrary
              movieLibrary metaOf rest with
          | error e => rw [hr] at h; simp [Except.map] at h
          | ok its =>
            rw [hr] at h
            simp only [Except.map] at h
            injection h with h'
            subst h'
            intro it hit
            rcases List.mem_cons.mp hit with rfl | hmem
            · simpa [mkItem] using Bool.eq_false_iff.mpr hc
            · exact ih its hr it hmem
    · exact ih items h

/-- The Radarr entry for the C6 witness scenario. -/
def c6Movie : ArrEntry :=
  ⟨"Inception", some "tt1375666", none, none, "/movies/Inception", 42,
    "inception-2010", 2010⟩

/-- The never-watched Tautulli entry for the C6 witness scenario. -/
def c6Media : TautulliMedia := ⟨"rk6", "Inception", 0, none⟩

/-- Metadata fetch for the C6 witness scenario. -/
def c6Meta : String → Option TautulliMetadata :=
  fun k =>
    if k == "rk6" then some ⟨"movie", ["imdb://tt1375666"], "Inception"⟩
    else none

/-- The item the reconciliation emits in the C6 witness scenario. -/
def c6Item : UnwatchedItem :=
  ⟨"Inception", "/movies/Inception", 42, "movie", "rh/movie/inception-2010",
    2010⟩

/-- C6 witness: a concrete run emits one item and its path is clean. -/
theorem output_paths_never_protected_witness :
    strContains c6Item.path "(Do Not Delete)" = false :=
  output_paths_never_protected "sh" "rh" [] [c6Movie] c6Meta [c6Media]
    [c6Item] rfl c6Item (by decide)

/-! ## C9: the deletion workflow -/

/-- `delete_media` never adds, drops or reorders stored items. -/
lemma delete_media_map_fst (sonarrHost sonarrToken radarrHost radarrToken :
    String) (answer : Nat → String) (deleteResp : String → Nat) :
    ∀ (items : List UnwatchedItem) (counter : Nat),
      (delete_media sonarrHost sonarrToken radarrHost radarrToken answer
        deleteResp counter items).map Prod.fst = items := by
  intro items
  induction items with
  | nil => intro counter; rfl
  | cons it rest ih =>
    intro counter
    simp only [delete_media, List.map_cons]
    rw [ih (counter + 1)]

/-- Characterization of the per-item outcome of `delete_media` at index
`i` of the result (prompt counter `counter + i`). -/
lemma delete_media_get (sonarrHost sonarrToken radarrHost radarrToken :
    String) (answer : Nat → String) (deleteResp : String → Nat) :
    ∀ (items : List UnwatchedItem) (counter i : Nat) (it : UnwatchedItem)
      (d : Option Bool),
      (delete_media sonarrHost sonarrToken radarrHost radarrToken answer
        deleteResp counter items).get? i = some (it, d) →
      ((py_lower (answer (counter + i)) = "y" →
          d = some (deleteResp (delete_url sonarrHost sonarrToken radarrHost
            radarrToken it) == 200)) ∧
        (py_lower (answer (counter + i)) ≠ "y" → d = none)) := by
  intro items
  induction items with
  | nil => intro counter i it d h; simp [delete_media] at h
  | cons a rest ih =>
    intro counter i it d h
    cases i with
    | zero =>
      simp only [delete_media, List.get?_cons_zero, Option.some.injEq] at h
      have hit : a = it := congrArg Prod.fst h
      have hd := congrArg Prod.snd h
      simp only at hd
      subst hit
      rw [Nat.add_zero]
      constructor
      · intro hy
        rw [← hd]
        simp [hy]
      · intro hn
        rw [← hd]
        have : (py_lower (answer counter) == "y") = false :=
          beq_eq_false_iff_ne.mpr hn
        simp [this]
    | succ i' =>
      simp only [delete_media, List.get?_cons_succ] at h
      have hres := ih (counter + 1) i' it d h
      have hc : counter + 1 + i' = counter + (i' + 1) := by omega
      rw [hc] at hres
      exact hres

/-- C9: in `delete_media`, the item at result index `i` triggers an HTTP
DELETE (outcome `some _`) exactly when the operator's lowercased answer at
its prompt is `"y"`; when issued, success (`some true`, "Deleted") is
reported exactly when the response status is 200 and failure otherwise,
with no retry; a declined item gets outcome `none` (no DELETE), and the
processed sequence keeps every stored item unchanged and in order (the
result store is never rewritten by the workflow). -/
theorem delete_workflow_behavior
    (sonarrHost sonarrToken radarrHost radarrToken : String)
    (answer : Nat → String) (deleteResp : String → Nat)
    (counter i : Nat) (items : List UnwatchedItem) (it : UnwatchedItem)
    (d : Option Bool)
    (h : (delete_media sonarrHost sonarrToken radarrHost radarrToken answer
      deleteResp counter items).get? i = some (it, d)) :
    (delete_media sonarrHost sonarrToken radarrHost radarrToken answer
        deleteResp counter items).map Prod.fst = items ∧
      (py_lower (answer (counter + i)) = "y" →
        d = some (deleteResp (delete_url sonarrHost sonarrToken radarrHost
          radarrToken it) == 200)) ∧
      (py_lower (answer (counter + i)) ≠ "y" → d = none) :=
  ⟨delete_media_map_fst sonarrHost sonarrToken radarrHost radarrToken answer
      deleteResp items counter,
    (delete_media_get sonarrHost sonarrToken radarrHost radarrToken answer
      deleteResp items counter i it d h).1,
    (delete_media_get sonarrHost sonarrToken radarrHost radarrToken answer
      deleteResp items counter i it d h).2⟩

/-- A persisted item for the C9 witness. -/
def c9Item : UnwatchedItem :=
  ⟨"Old Movie", "/movies/Old", 7, "movie", "rh/movie/old", 1970⟩

/-- Operator answering "Y" at the first (and only) prompt. -/
def c9Answer : Nat → String := fun n => if n == 1 then "Y" else "n"

/-- DELETE endpoint answering status 200. -/
def c9Resp : String → Nat := fun _ => 200

/-- C9 witness: the affirmed first item is deleted with success reported,
and the stored sequence is preserved. -/
theorem delete_workflow_behavior_witness :
    (delete_media "sh" "st" "rh" "rt" c9Answer c9Resp 1 [c9Item]).map
        Prod.fst = [c9Item] ∧
      (py_lower (c9Answer (1 + 0)) = "y" →
        (some true : Option Bool) =
          some (c9Resp (delete_url "sh" "st" "rh" "rt" c9Item) == 200)) ∧
      (py_lower (c9Answer (1 + 0)) ≠ "y" → (some true : Option Bool) = none) :=
  delete_workflow_behavior "sh" "st" "rh" "rt" c9Answer c9Resp 1 0 [c9Item]
    c9Item (some true) (by decide)
